import Mathlib

/-!
Shallow embedding of src/app.py (outfit-vote): a single-contest outfit
voting web application backed by Postgres.  Times are modelled as seconds
since the Unix epoch (Nat); the Postgres conversion AT TIME ZONE
Asia/Seoul is a fixed UTC+9 offset (Korea has no daylight saving time).
The single contest row (id = 1) is the `contest` field of the `DB` state;
the `outfits` and `votes` tables are lists; `bigserial` ids for outfits
are modelled by the `nextOutfitId` counter.  The Postgres unique indexes
`uniq_vote_per_outfit_per_voter` and `uniq_submission_per_creator` are
modelled by membership tests at insert time whose failure branch mirrors
the `except errors.UniqueViolation` handlers (rollback: state unchanged,
duplicate reported to the caller).
-/

namespace OutfitVote

/-- Env default for VOTES_PER_DAY (votes per voter per Korean calendar day). -/
def VOTES_PER_DAY : Nat := 2

/-- Env default for VOTING_PERIOD_DAYS (length of the voting phase in days). -/
def VOTING_PERIOD_DAYS : Nat := 5

/-- Seconds in one day. -/
def secondsPerDay : Nat := 86400

/-- Fixed UTC offset of Asia/Seoul in seconds (UTC+9, no DST). -/
def seoulOffset : Nat := 9 * 3600

/-- Day number of a Unix timestamp at time zone Asia/Seoul: models the SQL
cast (created_at AT TIME ZONE Asia/Seoul)::date used by TODAY_SQL. -/
def seoulDate (t : Nat) : Nat := (t + seoulOffset) / secondsPerDay

/-- TODAY_SQL of src/app.py line 221: the stored timestamp falls on the same
Seoul-local calendar date as now. -/
def todaySql (createdAt now : Nat) : Bool := seoulDate createdAt == seoulDate now

/-- Contest status column: submission | voting | closed. -/
inductive Status
  | submission
  | voting
  | closed
  deriving DecidableEq, Repr

/-- Row of the outfits table (contest_id is always 1 and omitted). -/
structure Outfit where
  id : Nat
  title : String
  imageUrl : String
  creatorId : String
  createdAt : Nat
  deriving DecidableEq, Repr

/-- Row of the votes table (contest_id always 1, vote id irrelevant, omitted). -/
structure VoteRec where
  outfitId : Nat
  voterId : String
  createdAt : Nat
  deriving DecidableEq, Repr

/-- The singleton contests row (id = 1). -/
structure Contest where
  title : String
  status : Status
  votingOpenedAt : Option Nat
  votingEndsAt : Option Nat
  maxEntries : Nat
  votesPerUser : Nat
  deriving DecidableEq, Repr

/-- Whole database state. -/
structure DB where
  contest : Contest
  outfits : List Outfit
  votes : List VoteRec
  nextOutfitId : Nat
  deriving DecidableEq, Repr

/-- The contests row created by init_db on first boot: defaults from the
create table statement, with votes_per_user synced to VOTES_PER_DAY. -/
def initContest : Contest :=
  { title := "Angel Heart"
  , status := Status.submission
  , votingOpenedAt := none
  , votingEndsAt := none
  , maxEntries := 10
  , votesPerUser := VOTES_PER_DAY }

/-- Fresh database right after init_db. -/
def initDB : DB :=
  { contest := initContest, outfits := [], votes := [], nextOutfitId := 1 }

/-- Number of votes in a list by a voter whose createdAt falls on Seoul day d. -/
def votesOnL (votes : List VoteRec) (voter : String) (d : Nat) : Nat :=
  (votes.filter (fun v => v.voterId == voter && seoulDate v.createdAt == d)).length

/-- Number of votes by a voter whose createdAt falls on Seoul day d. -/
def votesOn (db : DB) (voter : String) (d : Nat) : Nat :=
  votesOnL db.votes voter d

/-- The query select count(*) from votes where voter_id = v and TODAY_SQL:
votes by the voter on the current Seoul day. -/
def usedToday (db : DB) (voter : String) (now : Nat) : Nat :=
  votesOn db voter (seoulDate now)

/-- phase_auto_close_if_needed (src/app.py lines 199-207): if status is
voting and voting_ends_at is set and has passed, set status to closed
(conditional update: where id=1 and status=voting, which holds here). -/
def phase_auto_close_if_needed (db : DB) (now : Nat) : DB :=
  if db.contest.status = Status.voting then
    match db.contest.votingEndsAt with
    | some e => if e ≤ now then { db with contest := { db.contest with status := Status.closed } } else db
    | none => db
  else db

/-- Allowed upload extensions (src/app.py line 190). -/
def allowedExts : List String := ["png", "jpg", "jpeg", "gif", "webp"]

/-- The dot character. -/
def dotChar : Char := Char.ofNat 46

/-- ASCII lower-casing of one character; the lower-cased extension is only
ever compared against the ASCII alternatives in allowedExts. -/
def lowerChar (c : Char) : Char :=
  if 65 ≤ c.toNat ∧ c.toNat ≤ 90 then Char.ofNat (c.toNat + 32) else c

/-- Characters after the last dot, or the whole text when no dot occurs:
the last piece of filename.rsplit on a dot.  cur accumulates the piece
read since the latest dot. -/
def afterLastDot : List Char → List Char → List Char
  | [], cur => cur
  | c :: rest, cur =>
    if c = dotChar then afterLastDot rest [] else afterLastDot rest (cur ++ [c])

/-- Lower-cased extension of a filename (text after the last dot). -/
def extOf (filename : String) : String :=
  String.mk ((afterLastDot filename.data []).map lowerChar)

/-- file_allowed (src/app.py line 190). -/
def file_allowed (filename : String) : Bool :=
  filename.data.contains dotChar && allowedExts.contains (extOf filename)

/-- sniff_is_image_by_name (src/app.py lines 192-194): mimetypes.guess_type
maps exactly the extensions png, jpg, jpeg, gif, webp (case-insensitively)
to the four accepted image mime types. -/
def sniff_is_image_by_name (name : String) : Bool :=
  allowedExts.contains (extOf name)

/-- Uploaded file as received by the handler.  uploadSucceeds models the
outcome of the external storage collaborator call (supa_upload_bytes or the
legacy local write): False means the call raised inside the try block. -/
structure FileUpload where
  filename : String
  uploadSucceeds : Bool
  deriving DecidableEq, Repr

/-- Public URL returned by the storage collaborator on success; its exact
text is environment-dependent and irrelevant, but it is nonempty. -/
def storedUrlFor (voterId : String) (f : FileUpload) : String :=
  "stored/contest-1/" ++ voterId ++ "/" ++ f.filename

/-- Outcome of POST /submit, one constructor per flash branch. -/
inductive SubmitResult
  | ok
  | wrongPhase
  | capacityReached
  | duplicateSubmission
  | invalidImage
  | uploadFailed
  deriving DecidableEq, Repr

/-- Image-acquisition part of submit (src/app.py lines 333-366): file upload
(guarded by file_allowed, then the mime sniff, then the storage write)
takes priority, else a nonempty external URL, else the error asking for an
image.  Returns the saved_url or the error to flash. -/
def acquireImage (voterId imageUrl : String) (file : Option FileUpload) :
    Except SubmitResult String :=
  match file with
  | some f =>
    if f.filename ≠ "" && file_allowed f.filename then
      if ¬ sniff_is_image_by_name f.filename then Except.error SubmitResult.invalidImage
      else if ¬ f.uploadSucceeds then Except.error SubmitResult.uploadFailed
      else Except.ok (storedUrlFor voterId f)
    else if imageUrl ≠ "" then Except.ok imageUrl
    else Except.error SubmitResult.invalidImage
  | none =>
    if imageUrl ≠ "" then Except.ok imageUrl
    else Except.error SubmitResult.invalidImage

/-- POST /submit (src/app.py lines 300-403).  Checks in source order: phase,
capacity, one submission per creator, image acquisition; then the insert,
then the capacity re-count that auto-starts voting.  Line 385 of the source
reads `if count >= contest["max_entries"]]:` with a stray closing bracket (a
SyntaxError in Python); the comparison is embedded as evidently intended,
`count >= max_entries`, matching the identical check on line 321.  The
conditional update on lines 388-397 (where id=1 and status=submission) is
embedded including its status condition.  The except UniqueViolation around
the insert guards a concurrent duplicate; in this sequential embedding the
earlier per-creator check makes that branch unreachable. -/
def submit (db : DB) (voterId title imageUrl : String) (file : Option FileUpload)
    (now : Nat) : SubmitResult × DB :=
  if db.contest.status ≠ Status.submission then (SubmitResult.wrongPhase, db)
  else if db.contest.maxEntries ≤ db.outfits.length then (SubmitResult.capacityReached, db)
  else if db.outfits.any (fun o => o.creatorId == voterId) then (SubmitResult.duplicateSubmission, db)
  else
    match acquireImage voterId imageUrl file with
    | Except.error e => (e, db)
    | Except.ok savedUrl =>
      let title1 := if title = "" then "Untitled Outfit" else title
      let entry : Outfit :=
        { id := db.nextOutfitId, title := title1, imageUrl := savedUrl
        , creatorId := voterId, createdAt := now }
      let db1 : DB :=
        { db with outfits := db.outfits ++ [entry], nextOutfitId := db.nextOutfitId + 1 }
      if db1.contest.maxEntries ≤ db1.outfits.length then
        if db1.contest.status = Status.submission then
          (SubmitResult.ok,
           { db1 with contest := { db1.contest with
              status := Status.voting,
              votingOpenedAt := some now,
              votingEndsAt := some (now + VOTING_PERIOD_DAYS * secondsPerDay) } })
        else (SubmitResult.ok, db1)
      else (SubmitResult.ok, db1)

/-- Outcome of POST /vote/:oid, one constructor per flash branch. -/
inductive VoteOutcome
  | ok
  | wrongPhase
  | limitReached
  | notFound
  | selfVote
  | duplicate
  deriving DecidableEq, Repr

/-- POST /vote/:oid (src/app.py lines 405-460).  Checks in source order:
phase (no auto-close call in this handler), the daily limit via TODAY_SQL,
row existence, the self-vote ban; then the insert under the unique index
uniq_vote_per_outfit_per_voter, whose violation is caught, rolled back and
reported as the duplicate flash. -/
def vote (db : DB) (voterId : String) (oid : Nat) (now : Nat) : VoteOutcome × DB :=
  if db.contest.status ≠ Status.voting then (VoteOutcome.wrongPhase, db)
  else if db.contest.votesPerUser ≤ usedToday db voterId now then (VoteOutcome.limitReached, db)
  else
    match db.outfits.find? (fun o => o.id == oid) with
    | none => (VoteOutcome.notFound, db)
    | some o =>
      if o.creatorId = voterId then (VoteOutcome.selfVote, db)
      else if db.votes.any (fun v => v.outfitId == oid && v.voterId == voterId) then
        (VoteOutcome.duplicate, db)
      else
        (VoteOutcome.ok,
         { db with votes := db.votes ++ [{ outfitId := oid, voterId := voterId, createdAt := now }] })

/-- Data rendered by GET / (src/app.py lines 226-298), restricted to the
fields the specification talks about.  votes_left is max 0 (per - used),
which on Nat is truncated subtraction. -/
structure IndexView where
  status : Status
  entriesCount : Nat
  iSubmitted : Bool
  myVotesToday : Nat
  votesLeft : Nat
  deriving DecidableEq, Repr

/-- GET / : the only handler that calls phase_auto_close_if_needed before
reading state. -/
def index (db : DB) (voterId : String) (now : Nat) : IndexView × DB :=
  let db1 := phase_auto_close_if_needed db now
  ({ status := db1.contest.status
   , entriesCount := db1.outfits.length
   , iSubmitted := db1.outfits.any (fun o => o.creatorId == voterId)
   , myVotesToday := usedToday db1 voterId now
   , votesLeft := db1.contest.votesPerUser - usedToday db1 voterId now }, db1)

/-- Total vote count of one outfit (the grouped subquery of the results SQL). -/
def voteCount (db : DB) (oid : Nat) : Nat :=
  (db.votes.filter (fun v => v.outfitId == oid)).length

/-- The ORDER BY key of the results query (order by votes desc, created_at
asc) as a Boolean total preorder on joined rows. -/
def rankLE (a b : Outfit × Nat) : Bool :=
  b.2 < a.2 || (a.2 == b.2 && a.1.createdAt ≤ b.1.createdAt)

/-- The ORDER BY key as a proposition. -/
def rankLEP (a b : Outfit × Nat) : Prop := rankLE a b = true

instance : DecidableRel rankLEP := by
  intro a b; unfold rankLEP; infer_instance

instance : IsTotal (Outfit × Nat) rankLEP := by
  constructor; intro a b
  simp only [rankLEP, rankLE, Bool.or_eq_true, Bool.and_eq_true, decide_eq_true_eq, beq_iff_eq]
  omega

instance : IsTrans (Outfit × Nat) rankLEP := by
  constructor; intro a b c
  simp only [rankLEP, rankLE, Bool.or_eq_true, Bool.and_eq_true, decide_eq_true_eq, beq_iff_eq]
  omega

/-- Three-key ordering demanded by the specification: vote count descending,
then createdAt ascending, then outfit id ascending. -/
def rankLE3 (a b : Outfit × Nat) : Prop :=
  b.2 < a.2 ∨ (a.2 = b.2 ∧ (a.1.createdAt < b.1.createdAt ∨
    (a.1.createdAt = b.1.createdAt ∧ a.1.id ≤ b.1.id)))

instance (a b : Outfit × Nat) : Decidable (rankLE3 a b) := by
  unfold rankLE3; infer_instance

/-- Relational semantics of the results query (src/app.py lines 617-631):
SQL guarantees the output is some permutation of the left join of outfits
with their counts that is weakly sorted by the ORDER BY key; the relative
order of rows equal under both keys is not specified. -/
def validRanking (db : DB) (l : List (Outfit × Nat)) : Prop :=
  (l.map Prod.fst).Perm db.outfits ∧
  (∀ p ∈ l, p.2 = voteCount db p.1.id) ∧
  l.Pairwise rankLEP

instance (db : DB) (l : List (Outfit × Nat)) : Decidable (validRanking db l) := by
  unfold validRanking; infer_instance

/-- One concrete execution of the results query: the joined rows sorted by
the ORDER BY key. -/
def computeRanking (db : DB) : List (Outfit × Nat) :=
  (db.outfits.map (fun o => (o, voteCount db o.id))).insertionSort rankLEP

/-- Page rendered by GET /results. -/
inductive ResultsPage
  | notAvailable
  | page (ranking : List (Outfit × Nat)) (top3 : List (Outfit × Nat))
  deriving DecidableEq, Repr

/-- GET /results (src/app.py lines 605-638): no auto-close call; redirects
unless status is closed; top3 is the first three rows of the ranking. -/
def results (db : DB) : ResultsPage :=
  if db.contest.status = Status.closed then
    ResultsPage.page (computeRanking db) ((computeRanking db).take 3)
  else ResultsPage.notAvailable

/-- Responses of the admin routes. -/
inductive AdminResp
  | forbidden
  | done
  | failed
  | statusLine (status : Status) (opened endsAt : Option Nat)
  deriving DecidableEq, Repr

/-- require_admin (src/app.py lines 482-483): the session flag. -/
def require_admin (isAdmin : Bool) : Bool := isAdmin

/-- POST /admin/delete/:oid (lines 485-504): delete one outfit; the foreign
key on votes is on delete cascade, so its votes go with it. -/
def admin_delete (db : DB) (isAdmin : Bool) (oid : Nat) : AdminResp × DB :=
  if ¬ require_admin isAdmin then (AdminResp.forbidden, db)
  else if db.outfits.any (fun o => o.id == oid) then
    (AdminResp.done,
     { db with
        outfits := db.outfits.filter (fun o => ¬ o.id == oid),
        votes := db.votes.filter (fun v => ¬ v.outfitId == oid) })
  else (AdminResp.failed, db)

/-- POST /admin/delete_all (lines 506-519): delete every outfit of contest 1;
votes referencing them cascade. -/
def admin_delete_all (db : DB) (isAdmin : Bool) : AdminResp × DB :=
  if ¬ require_admin isAdmin then (AdminResp.forbidden, db)
  else
    (AdminResp.done,
     { db with
        outfits := [],
        votes := db.votes.filter (fun v => ¬ db.outfits.any (fun o => o.id == v.outfitId)) })

/-- POST /admin/reset (lines 521-551): delete all votes, then all outfits,
then rewrite the contest row to submission with cleared timestamps and
votes_per_user back to VOTES_PER_DAY. -/
def admin_reset (db : DB) (isAdmin : Bool) : AdminResp × DB :=
  if ¬ require_admin isAdmin then (AdminResp.forbidden, db)
  else
    (AdminResp.done,
     { db with
        votes := [],
        outfits := [],
        contest := { db.contest with
          status := Status.submission,
          votingOpenedAt := none,
          votingEndsAt := none,
          votesPerUser := VOTES_PER_DAY } })

/-- GET /admin/status (lines 553-560): no admin check at all; returns the
status line for any caller.  The isAdmin argument is the session flag the
handler never reads. -/
def admin_status (db : DB) (isAdmin : Bool) : AdminResp :=
  AdminResp.statusLine db.contest.status db.contest.votingOpenedAt db.contest.votingEndsAt

/-- POST /admin/start_voting_5days (lines 562-590): admin only; legal only
from submission; conditional update (where id=1 and status=submission). -/
def admin_start_voting_5days (db : DB) (isAdmin : Bool) (now : Nat) : AdminResp × DB :=
  if ¬ require_admin isAdmin then (AdminResp.forbidden, db)
  else if db.contest.status ≠ Status.submission then (AdminResp.failed, db)
  else
    (AdminResp.done,
     { db with contest := { db.contest with
        status := Status.voting,
        votingOpenedAt := some now,
        votingEndsAt := some (now + VOTING_PERIOD_DAYS * secondsPerDay) } })

/-- /admin/close (lines 592-600): admin only; unconditional close. -/
def admin_close (db : DB) (isAdmin : Bool) : AdminResp × DB :=
  if ¬ require_admin isAdmin then (AdminResp.forbidden, db)
  else (AdminResp.done, { db with contest := { db.contest with status := Status.closed } })

/-- One inbound request, without its timestamp. -/
inductive Op
  | submitReq (voterId title imageUrl : String) (file : Option FileUpload)
  | voteReq (voterId : String) (oid : Nat)
  | indexReq (voterId : String)
  | resultsReq
  | adminStatusReq
  | adminDeleteReq (isAdmin : Bool) (oid : Nat)
  | adminDeleteAllReq (isAdmin : Bool)
  | adminResetReq (isAdmin : Bool)
  | adminCloseReq (isAdmin : Bool)
  | adminStartVotingReq (isAdmin : Bool)
  deriving DecidableEq, Repr

/-- Effect of one timestamped request on the database. -/
def step (db : DB) (e : Op × Nat) : DB :=
  match e.1 with
  | Op.submitReq v title url file => (submit db v title url file e.2).2
  | Op.voteReq v oid => (vote db v oid e.2).2
  | Op.indexReq v => (index db v e.2).2
  | Op.resultsReq => db
  | Op.adminStatusReq => db
  | Op.adminDeleteReq a oid => (admin_delete db a oid).2
  | Op.adminDeleteAllReq a => (admin_delete_all db a).2
  | Op.adminResetReq a => (admin_reset db a).2
  | Op.adminCloseReq a => (admin_close db a).2
  | Op.adminStartVotingReq a => (admin_start_voting_5days db a e.2).2

/-- Run a trace of timestamped requests. -/
def run (db : DB) : List (Op × Nat) → DB
  | [] => db
  | e :: rest => run (step db e) rest

/-- Number of vote requests by the given voter that the application accepts
along a trace. -/
def acceptedVotesBy (db : DB) (trace : List (Op × Nat)) (voter : String) : Nat :=
  match trace with
  | [] => 0
  | (op, t) :: rest =>
    (match op with
     | Op.voteReq v oid =>
       if v == voter && (vote db v oid t).1 == VoteOutcome.ok then 1 else 0
     | _ => 0) + acceptedVotesBy (step db (op, t)) rest voter

/-!
Invariant predicates used by the trace theorems.
-/

/-- Per voter and per Seoul calendar day, at most votesPerUser votes exist. -/
def DailyCapOk (db : DB) : Prop :=
  ∀ v d, votesOn db v d ≤ db.contest.votesPerUser

/-- No two votes share the (outfitId, voterId) pair: the uniqueness the
index uniq_vote_per_outfit_per_voter guarantees. -/
def UniqueVotePairs (db : DB) : Prop :=
  db.votes.Pairwise (fun a b => ¬(a.outfitId = b.outfitId ∧ a.voterId = b.voterId))

/-- The outfit count never exceeds max_entries. -/
def CapacityOk (db : DB) : Prop :=
  db.outfits.length ≤ db.contest.maxEntries

/-!
Concrete states used by the scenario theorems.
-/

/-- Outfit submitted by alice. -/
def oA : Outfit :=
  { id := 1, title := "A", imageUrl := "urlA", creatorId := "alice", createdAt := 0 }

/-- Outfit submitted by bruno, same createdAt as oA. -/
def oB : Outfit :=
  { id := 2, title := "B", imageUrl := "urlB", creatorId := "bruno", createdAt := 0 }

/-- Outfit submitted by cara. -/
def oC : Outfit :=
  { id := 3, title := "C", imageUrl := "urlC", creatorId := "cara", createdAt := 0 }

/-- Voting-phase state whose deadline (timestamp 100) lies in the past of
the request timestamps used below. -/
def dbPastDeadline : DB :=
  { contest := { initContest with
      status := Status.voting, votingOpenedAt := some 0, votingEndsAt := some 100 }
  , outfits := [oA], votes := [], nextOutfitId := 2 }

/-- Closed contest with two zero-vote outfits that tie on both ORDER BY
keys (equal vote count, equal createdAt) but have different ids. -/
def dbTwoTies : DB :=
  { contest := { initContest with status := Status.closed }
  , outfits := [oA, oB], votes := [], nextOutfitId := 3 }

/-- Voting-phase state where voter v has already voted outfits 1 and 2 on
Seoul day 0 (timestamps 10 and 20); votesPerUser is 2.  Timestamp 50000 is
still Seoul day 0; timestamp 90000 is Seoul day 1. -/
def dbScenario3 : DB :=
  { contest := { initContest with
      status := Status.voting, votingOpenedAt := some 0, votingEndsAt := some 432000 }
  , outfits := [oA, oB, oC]
  , votes := [ { outfitId := 1, voterId := "v", createdAt := 10 }
             , { outfitId := 2, voterId := "v", createdAt := 20 } ]
  , nextOutfitId := 4 }

/-- Submission-phase state one outfit short of a small capacity of 2. -/
def dbNearCap : DB :=
  { contest := { initContest with maxEntries := 2 }
  , outfits := [oA], votes := [], nextOutfitId := 2 }

/-- A state with leftovers of a finished contest, used for the reset
round-trip. -/
def dbFinished : DB :=
  { contest := { initContest with
      status := Status.closed, votingOpenedAt := some 5, votingEndsAt := some 9 }
  , outfits := [oA, oB]
  , votes := [ { outfitId := 1, voterId := "v", createdAt := 10 } ]
  , nextOutfitId := 3 }

/-!
A request cycle that lets one voter accumulate accepted votes without any
daily bound: submit an outfit, start voting, vote it, reset.  The reset
deletes the vote rows, so the TODAY_SQL count of the voter is back to zero
and the next cycle is accepted again, all on the same day.
-/

/-- One cycle of requests, all at timestamp 0; k + 1 is the id the
submitted outfit receives. -/
def pumpCycle (k : Nat) : List (Op × Nat) :=
  [ (Op.submitReq "creator" "T" "http://img" none, 0)
  , (Op.adminStartVotingReq true, 0)
  , (Op.voteReq "v" (k + 1), 0)
  , (Op.adminResetReq true, 0) ]

/-- n cycles starting when the next outfit id is k + 1. -/
def pumpTrace : Nat → Nat → List (Op × Nat)
  | 0, _ => []
  | Nat.succ n, k => pumpCycle k ++ pumpTrace n (k + 1)

/-- State between cycles: the fresh database with the outfit id counter
advanced to k + 1. -/
def pumpState (k : Nat) : DB :=
  { initDB with nextOutfitId := k + 1 }

/-!
Helper lemmas shared by several claim theorems.
-/

theorem run_append (l1 l2 : List (Op × Nat)) (db : DB) :
    run db (l1 ++ l2) = run (run db l1) l2 := by
  induction l1 generalizing db with
  | nil => rfl
  | cons e rest ih => simp [run, ih]

theorem acceptedVotesBy_append (l1 l2 : List (Op × Nat)) (db : DB) (v : String) :
    acceptedVotesBy db (l1 ++ l2) v =
      acceptedVotesBy db l1 v + acceptedVotesBy (run db l1) l2 v := by
  induction l1 generalizing db with
  | nil => simp [acceptedVotesBy, run]
  | cons e rest ih =>
    cases e with
    | mk op t => simp [acceptedVotesBy, run, ih]; omega

theorem vote_ne_wrongPhase_of_voting (db : DB) (v : String) (oid now : Nat)
    (h : db.contest.status = Status.voting) :
    (vote db v oid now).1 ≠ VoteOutcome.wrongPhase := by
  unfold vote
  rw [if_neg (fun hne => hne h)]
  (repeat' split) <;> try simp

theorem votesOnL_append (vs : List VoteRec) (x : VoteRec) (v : String) (d : Nat) :
    votesOnL (vs ++ [x]) v d =
      votesOnL vs v d + (if x.voterId == v && seoulDate x.createdAt == d then 1 else 0) := by
  unfold votesOnL
  rw [List.filter_append, List.length_append, List.filter_singleton]
  cases hx : (x.voterId == v && seoulDate x.createdAt == d) <;> simp [hx]

theorem votesOnL_sublist {vs ws : List VoteRec} (h : vs.Sublist ws) (v : String) (d : Nat) :
    votesOnL vs v d ≤ votesOnL ws v d := by
  unfold votesOnL
  exact (h.filter _).length_le

theorem submit_votes_and_contest (db : DB) (v title url : String) (f : Option FileUpload)
    (now : Nat) :
    (submit db v title url f now).2.votes = db.votes ∧
    (submit db v title url f now).2.contest.votesPerUser = db.contest.votesPerUser ∧
    (submit db v title url f now).2.contest.maxEntries = db.contest.maxEntries := by
  unfold submit
  dsimp only
  (repeat' split) <;> try exact ⟨rfl, rfl, rfl⟩

theorem phase_auto_close_parts (db : DB) (now : Nat) :
    (phase_auto_close_if_needed db now).votes = db.votes ∧
    (phase_auto_close_if_needed db now).outfits = db.outfits ∧
    (phase_auto_close_if_needed db now).contest.votesPerUser = db.contest.votesPerUser ∧
    (phase_auto_close_if_needed db now).contest.maxEntries = db.contest.maxEntries := by
  unfold phase_auto_close_if_needed
  split
  · cases db.contest.votingEndsAt with
    | none => exact ⟨rfl, rfl, rfl, rfl⟩
    | some e => by_cases he : e ≤ now <;> simp [he]
  · exact ⟨rfl, rfl, rfl, rfl⟩

theorem capacityOk_step (db : DB) (e : Op × Nat) (h : CapacityOk db) : CapacityOk (step db e) := by
  obtain ⟨op, t⟩ := e
  unfold CapacityOk at h ⊢
  cases op <;> simp only [step]
  case submitReq v title url f =>
    unfold submit
    dsimp only
    (repeat' split) <;> try exact h
    all_goals simp [List.length_append] <;> omega
  case voteReq v oid =>
    unfold vote
    (repeat' split) <;> exact h
  case indexReq v =>
    show (phase_auto_close_if_needed db t).outfits.length ≤
      (phase_auto_close_if_needed db t).contest.maxEntries
    rw [(phase_auto_close_parts db t).2.1, (phase_auto_close_parts db t).2.2.2]
    exact h
  case resultsReq => exact h
  case adminStatusReq => exact h
  case adminDeleteReq a oid =>
    unfold admin_delete
    split
    · exact h
    split
    · show (db.outfits.filter _).length ≤ db.contest.maxEntries
      exact le_trans (List.length_filter_le _ _) h
    · exact h
  case adminDeleteAllReq a =>
    unfold admin_delete_all
    split
    · exact h
    · show (List.length []) ≤ db.contest.maxEntries
      exact Nat.zero_le _
  case adminResetReq a =>
    unfold admin_reset
    split
    · exact h
    · exact Nat.zero_le _
  case adminCloseReq a =>
    unfold admin_close
    split
    · exact h
    · exact h
  case adminStartVotingReq a =>
    unfold admin_start_voting_5days
    (repeat' split) <;> exact h

theorem capacityOk_run (trace : List (Op × Nat)) (db : DB) (h : CapacityOk db) :
    CapacityOk (run db trace) := by
  induction trace generalizing db with
  | nil => exact h
  | cons e rest ih => exact ih _ (capacityOk_step db e h)

theorem dailyCapOk_step (db : DB) (e : Op × Nat) (h : DailyCapOk db) : DailyCapOk (step db e) := by
  obtain ⟨op, t⟩ := e
  intro v d
  cases op <;> simp only [step]
  case submitReq v0 title url f =>
    have hs := submit_votes_and_contest db v0 title url f t
    unfold votesOn
    rw [hs.1, hs.2.1]
    exact h v d
  case voteReq v0 oid =>
    unfold vote
    (repeat' split) <;> try exact h v d
    show votesOnL (db.votes ++ [{ outfitId := oid, voterId := v0, createdAt := t }]) v d ≤
      db.contest.votesPerUser
    rw [votesOnL_append]
    split
    · rename_i hcond
      simp only [Bool.and_eq_true, beq_iff_eq] at hcond
      have hlt : usedToday db v0 t < db.contest.votesPerUser :=
        Nat.lt_of_not_le ‹¬ (db.contest.votesPerUser ≤ usedToday db v0 t)›
      unfold usedToday votesOn at hlt
      rw [← hcond.1, ← hcond.2]
      omega
    · have hd := h v d
      unfold votesOn at hd
      omega
  case indexReq v0 =>
    have hp := phase_auto_close_parts db t
    show votesOn (phase_auto_close_if_needed db t) v d ≤
      (phase_auto_close_if_needed db t).contest.votesPerUser
    unfold votesOn
    rw [hp.1, hp.2.2.1]
    exact h v d
  case resultsReq => exact h v d
  case adminStatusReq => exact h v d
  case adminDeleteReq a oid =>
    unfold admin_delete
    split
    · exact h v d
    split
    · show votesOnL (db.votes.filter _) v d ≤ db.contest.votesPerUser
      exact le_trans (votesOnL_sublist (List.filter_sublist _) v d) (h v d)
    · exact h v d
  case adminDeleteAllReq a =>
    unfold admin_delete_all
    split
    · exact h v d
    · show votesOnL (db.votes.filter _) v d ≤ db.contest.votesPerUser
      exact le_trans (votesOnL_sublist (List.filter_sublist _) v d) (h v d)
  case adminResetReq a =>
    unfold admin_reset
    split
    · exact h v d
    · show votesOnL [] v d ≤ VOTES_PER_DAY
      simp [votesOnL]
  case adminCloseReq a =>
    unfold admin_close
    split
    · exact h v d
    · exact h v d
  case adminStartVotingReq a =>
    unfold admin_start_voting_5days
    (repeat' split) <;> exact h v d

theorem dailyCapOk_run (trace : List (Op × Nat)) (db : DB) (h : DailyCapOk db) :
    DailyCapOk (run db trace) := by
  induction trace generalizing db with
  | nil => exact h
  | cons e rest ih => exact ih _ (dailyCapOk_step db e h)

theorem uniqueVotePairs_step (db : DB) (e : Op × Nat) (h : UniqueVotePairs db) :
    UniqueVotePairs (step db e) := by
  obtain ⟨op, t⟩ := e
  cases op <;> simp only [step]
  case submitReq v0 title url f =>
    unfold UniqueVotePairs at h ⊢
    rw [(submit_votes_and_contest db v0 title url f t).1]
    exact h
  case voteReq v0 oid =>
    unfold vote
    (repeat' split) <;> try exact h
    show List.Pairwise _ (db.votes ++ [{ outfitId := oid, voterId := v0, createdAt := t }])
    rw [List.pairwise_append]
    refine ⟨h, List.pairwise_singleton _ _, ?_⟩
    intro a ha b hb
    have hb1 : b = { outfitId := oid, voterId := v0, createdAt := t } := by
      simpa using hb
    have hany : ¬ (db.votes.any (fun vt => vt.outfitId == oid && vt.voterId == v0) = true) := by
      assumption
    rw [List.any_eq_true] at hany
    push_neg at hany
    have := hany a ha
    subst hb1
    simp only [Bool.and_eq_true, beq_iff_eq] at this
    simpa using this
  case indexReq v0 =>
    unfold UniqueVotePairs at h ⊢
    show List.Pairwise _ (phase_auto_close_if_needed db t).votes
    rw [(phase_auto_close_parts db t).1]
    exact h
  case resultsReq => exact h
  case adminStatusReq => exact h
  case adminDeleteReq a oid =>
    unfold admin_delete
    split
    · exact h
    split
    · exact h.sublist (List.filter_sublist _)
    · exact h
  case adminDeleteAllReq a =>
    unfold admin_delete_all
    split
    · exact h
    · exact h.sublist (List.filter_sublist _)
  case adminResetReq a =>
    unfold admin_reset
    split
    · exact h
    · exact List.Pairwise.nil
  case adminCloseReq a =>
    unfold admin_close
    split
    · exact h
    · exact h
  case adminStartVotingReq a =>
    unfold admin_start_voting_5days
    (repeat' split) <;> exact h

theorem uniqueVotePairs_run (trace : List (Op × Nat)) (db : DB) (h : UniqueVotePairs db) :
    UniqueVotePairs (run db trace) := by
  induction trace generalizing db with
  | nil => exact h
  | cons e rest ih => exact ih _ (uniqueVotePairs_step db e h)

/-!
Claim theorems.
-/

/-- C1, counterexample: in a voting-phase state whose votingEndsAt (100) is
far in the past of the request time (1000000), a cast-vote request is
accepted and inserts a vote row; the claim says it reports WrongPhase and
never inserts. -/
theorem c1_counterexample :
    dbPastDeadline.contest.status = Status.voting ∧
    dbPastDeadline.contest.votingEndsAt = some 100 ∧
    (100 : Nat) ≤ 1000000 ∧
    (vote dbPastDeadline "bob" 1 1000000).1 = VoteOutcome.ok ∧
    (vote dbPastDeadline "bob" 1 1000000).2.votes =
      [{ outfitId := 1, voterId := "bob", createdAt := 1000000 }] := by decide

/-- C1, amended: only the index request runs the lazy close.  When status
is voting and the deadline has passed, index transitions the contest to
closed before rendering, and a later cast-vote reports WrongPhase; but the
vote and results handlers run no such check themselves, so a cast-vote
sent directly in that state is not rejected as WrongPhase, and results
still reports not-available instead of closing. -/
theorem c1_only_index_lazy_closes (db : DB) (v v2 : String) (oid : Nat) (e now now2 : Nat)
    (hst : db.contest.status = Status.voting)
    (hends : db.contest.votingEndsAt = some e)
    (hpast : e ≤ now) :
    (index db v now).2.contest.status = Status.closed ∧
    (index db v now).1.status = Status.closed ∧
    vote (index db v now).2 v2 oid now2 = (VoteOutcome.wrongPhase, (index db v now).2) ∧
    (vote db v2 oid now2).1 ≠ VoteOutcome.wrongPhase ∧
    results db = ResultsPage.notAvailable := by
  have hclose : phase_auto_close_if_needed db now =
      { db with contest := { db.contest with status := Status.closed } } := by
    unfold phase_auto_close_if_needed
    rw [if_pos hst, hends]
    simp [hpast]
  refine ⟨?_, ?_, ?_, ?_, ?_⟩
  · simp [index, hclose]
  · simp [index, hclose]
  · simp [index, hclose, vote]
  · exact vote_ne_wrongPhase_of_voting db v2 oid now2 hst
  · simp [results, hst]

theorem c1_only_index_lazy_closes_witness :
    (index dbPastDeadline "x" 500).2.contest.status = Status.closed ∧
    (index dbPastDeadline "x" 500).1.status = Status.closed ∧
    vote (index dbPastDeadline "x" 500).2 "y" 1 600 =
      (VoteOutcome.wrongPhase, (index dbPastDeadline "x" 500).2) ∧
    (vote dbPastDeadline "y" 1 600).1 ≠ VoteOutcome.wrongPhase ∧
    results dbPastDeadline = ResultsPage.notAvailable :=
  c1_only_index_lazy_closes dbPastDeadline "x" "y" 1 100 500 600 rfl rfl (by decide)

/-- C2, counterexample: the two outfits of dbTwoTies tie on both ORDER BY
keys (vote count 0 each, equal createdAt) and the list putting id 2 before
id 1 satisfies everything the SQL query guarantees, yet is not ordered by
the id-ascending tie-break the claim states. -/
theorem c2_counterexample :
    validRanking dbTwoTies [(oB, 0), (oA, 0)] ∧
    oA.createdAt = oB.createdAt ∧ oA.id < oB.id ∧
    ¬ ([(oB, 0), (oA, 0)] : List (Outfit × Nat)).Pairwise rankLE3 := by decide

/-- C2, amended: on a closed contest the results page exposes a ranking
that is a permutation of all outfits, each paired with its vote count
(zero-vote outfits included with 0), weakly sorted by vote count
descending then createdAt ascending, with its first three rows as top3;
the relative order of rows equal under both keys is not constrained by
the query (no id tie-break). -/
theorem c2_ranking_properties (db : DB) (hclosed : db.contest.status = Status.closed) :
    results db = ResultsPage.page (computeRanking db) ((computeRanking db).take 3) ∧
    validRanking db (computeRanking db) ∧
    ∀ o ∈ db.outfits, (o, voteCount db o.id) ∈ computeRanking db := by
  have hperm : (computeRanking db).Perm (db.outfits.map (fun o => (o, voteCount db o.id))) :=
    List.perm_insertionSort _ _
  refine ⟨by simp [results, hclosed], ⟨?_, ?_, ?_⟩, ?_⟩
  · have h2 := hperm.map Prod.fst
    rw [List.map_map] at h2
    simpa [Function.comp_def] using h2
  · intro p hp
    have hmem : p ∈ db.outfits.map (fun o => (o, voteCount db o.id)) := hperm.subset hp
    rcases List.mem_map.mp hmem with ⟨o, _, rfl⟩
    rfl
  · exact List.sorted_insertionSort rankLEP _
  · intro o ho
    exact hperm.mem_iff.mpr (List.mem_map.mpr ⟨o, ho, rfl⟩)

theorem c2_ranking_properties_witness :
    results dbTwoTies =
      ResultsPage.page (computeRanking dbTwoTies) ((computeRanking dbTwoTies).take 3) ∧
    validRanking dbTwoTies (computeRanking dbTwoTies) ∧
    ∀ o ∈ dbTwoTies.outfits, (o, voteCount dbTwoTies o.id) ∈ computeRanking dbTwoTies :=
  c2_ranking_properties dbTwoTies rfl

/-- C3, counterexample: with votesPerUser = 2 and two votes already cast
today (outfits 1 and 2), a repeat attempt on outfit 1 fails with the limit
message, not the duplicate message the claim states: the daily-limit check
runs before the insert that would trip the uniqueness constraint. -/
theorem c3_counterexample :
    dbScenario3.contest.votesPerUser = 2 ∧
    usedToday dbScenario3 "v" 50000 = 2 ∧
    (vote dbScenario3 "v" 1 50000).1 = VoteOutcome.limitReached ∧
    (vote dbScenario3 "v" 1 50000).1 ≠ VoteOutcome.duplicate := by decide

/-- C3, amended: at the cap, the attempt on outfit 3 fails with
VoteLimitReached, and the repeat attempt on outfit 1 also fails with
VoteLimitReached (the limit check runs first); the duplicate error
surfaces only once the voter is below the daily cap again, e.g. on the
next Seoul day.  No attempt changes the state. -/
theorem c3_amended_scenario :
    vote dbScenario3 "v" 3 50000 = (VoteOutcome.limitReached, dbScenario3) ∧
    vote dbScenario3 "v" 1 50000 = (VoteOutcome.limitReached, dbScenario3) ∧
    vote dbScenario3 "v" 1 90000 = (VoteOutcome.duplicate, dbScenario3) ∧
    seoulDate 10 ≠ seoulDate 90000 := by decide

/-- C10: GET admin-status performs no authorization check: for every
session it returns the status line with both voting timestamps and never
the Forbidden response, while every admin POST route rejects a
non-admin session with Forbidden. -/
theorem c10_admin_status_unauthenticated (db : DB) (sess : Bool) (oid now : Nat) :
    admin_status db sess =
      AdminResp.statusLine db.contest.status db.contest.votingOpenedAt db.contest.votingEndsAt ∧
    admin_status db sess ≠ AdminResp.forbidden ∧
    (admin_delete db false oid).1 = AdminResp.forbidden ∧
    (admin_delete_all db false).1 = AdminResp.forbidden ∧
    (admin_reset db false).1 = AdminResp.forbidden ∧
    (admin_close db false).1 = AdminResp.forbidden ∧
    (admin_start_voting_5days db false now).1 = AdminResp.forbidden := by
  simp [admin_status, admin_delete, admin_delete_all, admin_reset, admin_close,
    admin_start_voting_5days, require_admin]

/-- C4: along any request trace from the fresh database the outfit count
never exceeds maxEntries; a single submit preserves the bound; and an
accepted submission that makes the count reach maxEntries fires the
voting transition (via the conditional update kept in the embedding, whose
status-still-submission condition holds here) with votingOpenedAt = now
and votingEndsAt = now + the voting period.  The capacity re-count of the
source carries a stray closing bracket (a Python SyntaxError at line 385);
the embedding reads the comparison as evidently intended. -/
theorem c4_capacity_and_transition
    (trace : List (Op × Nat)) (db : DB) (v title url : String) (f : Option FileUpload) (now : Nat)
    (hcap : db.outfits.length ≤ db.contest.maxEntries) :
    (run initDB trace).outfits.length ≤ (run initDB trace).contest.maxEntries ∧
    (submit db v title url f now).2.outfits.length ≤
      (submit db v title url f now).2.contest.maxEntries ∧
    ((submit db v title url f now).1 = SubmitResult.ok →
      (submit db v title url f now).2.outfits.length = db.contest.maxEntries →
      (submit db v title url f now).2.contest.status = Status.voting ∧
      (submit db v title url f now).2.contest.votingOpenedAt = some now ∧
      (submit db v title url f now).2.contest.votingEndsAt =
        some (now + VOTING_PERIOD_DAYS * secondsPerDay)) := by
  refine ⟨?_, ?_, ?_⟩
  · exact capacityOk_run trace initDB (by simp [CapacityOk, initDB])
  · exact capacityOk_step db (Op.submitReq v title url f, now) hcap
  · unfold submit
    dsimp only
    (repeat' split) <;> simp_all [List.length_append] <;> omega

theorem c4_capacity_and_transition_witness :
    (submit dbNearCap "zoe" "T" "http://x" none 77).2.contest.status = Status.voting ∧
    (submit dbNearCap "zoe" "T" "http://x" none 77).2.contest.votingOpenedAt = some 77 ∧
    (submit dbNearCap "zoe" "T" "http://x" none 77).2.contest.votingEndsAt =
      some (77 + VOTING_PERIOD_DAYS * secondsPerDay) :=
  (c4_capacity_and_transition [] dbNearCap "zoe" "T" "http://x" none 77 (by decide)).2.2
    (by decide) (by decide)

/-- C5: along any request trace from the fresh database, no voter ever has
more than votesPerUser votes on any one Seoul calendar day (the counting
window), and a voting-phase attempt by a voter already at the cap fails
with the limit error and leaves the database unchanged. -/
theorem c5_daily_cap (trace : List (Op × Nat)) (voter : String) (d : Nat)
    (db : DB) (v : String) (oid now : Nat)
    (hphase : db.contest.status = Status.voting)
    (hcap : db.contest.votesPerUser ≤ usedToday db v now) :
    votesOn (run initDB trace) voter d ≤ (run initDB trace).contest.votesPerUser ∧
    vote db v oid now = (VoteOutcome.limitReached, db) := by
  constructor
  · exact dailyCapOk_run trace initDB (by intro a b; simp [votesOn, votesOnL, initDB]) voter d
  · unfold vote
    rw [if_neg (fun hne => hne hphase), if_pos hcap]

theorem c5_daily_cap_witness :
    votesOn (run initDB []) "v" 0 ≤ (run initDB []).contest.votesPerUser ∧
    vote dbScenario3 "v" 3 50000 = (VoteOutcome.limitReached, dbScenario3) :=
  c5_daily_cap [] "v" 0 dbScenario3 "v" 3 50000 rfl (by decide)

/-- C6: the submit preconditions are checked in the source order with the
first failure winning: wrong phase, then capacity, then the
one-submission-per-creator rule, then image acquisition, which is
completed before the database insert; every failure returns the stated
error with the database unchanged (no outfit row created), and the only
image-acquisition failures are InvalidImage and UploadFailed. -/
theorem c6_submit_check_order (db : DB) (v title url : String) (f : Option FileUpload) (now : Nat) :
    (db.contest.status ≠ Status.submission →
      submit db v title url f now = (SubmitResult.wrongPhase, db)) ∧
    (db.contest.status = Status.submission →
      db.contest.maxEntries ≤ db.outfits.length →
      submit db v title url f now = (SubmitResult.capacityReached, db)) ∧
    (db.contest.status = Status.submission →
      db.outfits.length < db.contest.maxEntries →
      db.outfits.any (fun o => o.creatorId == v) = true →
      submit db v title url f now = (SubmitResult.duplicateSubmission, db)) ∧
    (∀ e, db.contest.status = Status.submission →
      db.outfits.length < db.contest.maxEntries →
      db.outfits.any (fun o => o.creatorId == v) = false →
      acquireImage v url f = Except.error e →
      submit db v title url f now = (e, db)) ∧
    (∀ e, acquireImage v url f = Except.error e →
      e = SubmitResult.invalidImage ∨ e = SubmitResult.uploadFailed) := by
  refine ⟨?_, ?_, ?_, ?_, ?_⟩
  · intro h1
    unfold submit
    rw [if_pos h1]
  · intro h1 h2
    unfold submit
    rw [if_neg (fun hne => hne h1), if_pos h2]
  · intro h1 h2 h3
    unfold submit
    rw [if_neg (fun hne => hne h1), if_neg (Nat.not_le.mpr h2), if_pos h3]
  · intro e h1 h2 h3 h4
    unfold submit
    rw [if_neg (fun hne => hne h1), if_neg (Nat.not_le.mpr h2), if_neg (by simp [h3]), h4]
  · intro e he
    unfold acquireImage at he
    repeat' split at he
    all_goals simp_all

theorem c6_submit_check_order_witness :
    submit dbPastDeadline "z" "T" "http://x" none 7 = (SubmitResult.wrongPhase, dbPastDeadline) ∧
    submit initDB "z" "T" "" (some { filename := "x.png", uploadSucceeds := false }) 7 =
      (SubmitResult.uploadFailed, initDB) :=
  ⟨(c6_submit_check_order dbPastDeadline "z" "T" "http://x" none 7).1 (by decide),
   (c6_submit_check_order initDB "z" "T" ""
      (some { filename := "x.png", uploadSucceeds := false }) 7).2.2.2.1
      SubmitResult.uploadFailed (by decide) (by decide) (by decide) rfl⟩

/-- C7: along any request trace from the fresh database no two vote rows
ever share the (outfitId, voterId) pair, and a vote attempt that passes
every earlier check but whose pair already exists — the situation of a
race loser hitting the unique index at insert time — is reported as the
duplicate error with the database unchanged (the rollback), never as a raw
storage error. -/
theorem c7_vote_pair_uniqueness (trace : List (Op × Nat))
    (db : DB) (v : String) (oid now : Nat) (o : Outfit)
    (hphase : db.contest.status = Status.voting)
    (hlimit : usedToday db v now < db.contest.votesPerUser)
    (hfind : db.outfits.find? (fun o => o.id == oid) = some o)
    (hself : o.creatorId ≠ v)
    (hdup : db.votes.any (fun vt => vt.outfitId == oid && vt.voterId == v) = true) :
    (run initDB trace).votes.Pairwise
      (fun a b => ¬(a.outfitId = b.outfitId ∧ a.voterId = b.voterId)) ∧
    vote db v oid now = (VoteOutcome.duplicate, db) := by
  constructor
  · exact uniqueVotePairs_run trace initDB (by simp [UniqueVotePairs, initDB])
  · unfold vote
    rw [if_neg (fun hne => hne hphase), if_neg (Nat.not_le.mpr hlimit)]
    simp only [hfind]
    rw [if_neg hself, if_pos hdup]

theorem c7_vote_pair_uniqueness_witness :
    (run initDB []).votes.Pairwise
      (fun a b => ¬(a.outfitId = b.outfitId ∧ a.voterId = b.voterId)) ∧
    vote dbScenario3 "v" 1 90000 = (VoteOutcome.duplicate, dbScenario3) :=
  c7_vote_pair_uniqueness [] dbScenario3 "v" 1 90000 oA rfl (by decide) (by decide)
    (by decide) (by decide)

/-- C8: admin reset deletes all votes and all outfits and rewrites the
contest row to submission with both timestamps cleared and votesPerUser
back to the default; a following accepted submission and an index read
reproduce the initial submission-phase view with entry count 1 — provided
the capacity is at least 2 (as the deployed default 10 is), since with
capacity 1 the single entry would trigger the automatic voting
transition. -/
theorem c8_reset_roundtrip (db : DB) (v title url : String) (t2 t3 : Nat)
    (hmax : 2 ≤ db.contest.maxEntries) (hurl : url ≠ "") :
    (admin_reset db true).1 = AdminResp.done ∧
    (admin_reset db true).2.votes = [] ∧
    (admin_reset db true).2.outfits = [] ∧
    (admin_reset db true).2.contest.status = Status.submission ∧
    (admin_reset db true).2.contest.votingOpenedAt = none ∧
    (admin_reset db true).2.contest.votingEndsAt = none ∧
    (admin_reset db true).2.contest.votesPerUser = VOTES_PER_DAY ∧
    (submit (admin_reset db true).2 v title url none t2).1 = SubmitResult.ok ∧
    (index (submit (admin_reset db true).2 v title url none t2).2 v t3).1.entriesCount = 1 ∧
    (index (submit (admin_reset db true).2 v title url none t2).2 v t3).1.status =
      Status.submission := by
  have hsub : submit (admin_reset db true).2 v title url none t2 =
      (SubmitResult.ok,
       ⟨⟨db.contest.title, Status.submission, none, none, db.contest.maxEntries, VOTES_PER_DAY⟩,
        [⟨db.nextOutfitId, (if title = "" then "Untitled Outfit" else title), url, v, t2⟩],
        [], db.nextOutfitId + 1⟩) := by
    unfold submit
    rw [if_neg (fun hne => hne rfl)]
    rw [if_neg (show ¬ ((admin_reset db true).2.contest.maxEntries ≤
      (admin_reset db true).2.outfits.length) from by
        show ¬ (db.contest.maxEntries ≤ 0); omega)]
    rw [if_neg (show ¬ ((admin_reset db true).2.outfits.any (fun o => o.creatorId == v) = true)
      from by simp [admin_reset, require_admin])]
    rw [show acquireImage v url none = Except.ok url from by
      unfold acquireImage
      dsimp only
      rw [if_pos hurl]]
    dsimp only
    split
    case isTrue ht =>
      split
      · exfalso
        rename_i hcontra
        have hc1 : db.contest.maxEntries ≤ 1 := by
          simpa [admin_reset, require_admin] using hcontra
        omega
      · rfl
    case isFalse ht =>
      split
      · exfalso
        rename_i hcontra
        have hc1 : db.contest.maxEntries ≤ 1 := by
          simpa [admin_reset, require_admin] using hcontra
        omega
      · rfl
  refine ⟨rfl, rfl, rfl, rfl, rfl, rfl, rfl, ?_, ?_, ?_⟩
  · rw [hsub]
  · rw [hsub]
    rfl
  · rw [hsub]
    rfl

theorem c8_reset_roundtrip_witness :
    (admin_reset dbFinished true).1 = AdminResp.done ∧
    (admin_reset dbFinished true).2.votes = [] ∧
    (admin_reset dbFinished true).2.outfits = [] ∧
    (admin_reset dbFinished true).2.contest.status = Status.submission ∧
    (admin_reset dbFinished true).2.contest.votingOpenedAt = none ∧
    (admin_reset dbFinished true).2.contest.votingEndsAt = none ∧
    (admin_reset dbFinished true).2.contest.votesPerUser = VOTES_PER_DAY ∧
    (submit (admin_reset dbFinished true).2 "w" "T" "http://x" none 3).1 = SubmitResult.ok ∧
    (index (submit (admin_reset dbFinished true).2 "w" "T" "http://x" none 3).2 "w" 4).1.entriesCount = 1 ∧
    (index (submit (admin_reset dbFinished true).2 "w" "T" "http://x" none 3).2 "w" 4).1.status =
      Status.submission :=
  c8_reset_roundtrip dbFinished "w" "T" "http://x" 3 4 (by decide) (by decide)

theorem run_pumpCycle (k : Nat) :
    run (pumpState k) (pumpCycle k) = pumpState (k + 1) ∧
    acceptedVotesBy (pumpState k) (pumpCycle k) "v" = 1 := by
  constructor <;>
    simp [pumpCycle, pumpState, run, step, acceptedVotesBy, submit, vote, index,
      admin_start_voting_5days, admin_reset, require_admin, initDB, initContest,
      acquireImage, usedToday, votesOn, votesOnL, List.find?, VOTES_PER_DAY,
      VOTING_PERIOD_DAYS, secondsPerDay]

theorem run_pumpTrace (n : Nat) : ∀ k : Nat,
    run (pumpState k) (pumpTrace n k) = pumpState (k + n) ∧
    acceptedVotesBy (pumpState k) (pumpTrace n k) "v" = n := by
  induction n with
  | zero => intro k; exact ⟨rfl, rfl⟩
  | succ n ih =>
    intro k
    have hc := run_pumpCycle k
    constructor
    · rw [pumpTrace, run_append, hc.1, (ih (k + 1)).1]
      congr 1
      omega
    · rw [pumpTrace, acceptedVotesBy_append, hc.2, hc.1, (ih (k + 1)).2]
      omega

/-- C9: the vote-limit counting window is the Seoul calendar day: a voter
whose every existing vote lies on a different Seoul day than the request
counts zero used votes and can never be rejected by the limit check (so
the cap resets at Seoul midnight), and the voter lifetime total of
accepted votes over the contest is unbounded: for every n some request
trace from the fresh database yields n accepted votes by one voter. -/
theorem c9_seoul_day_window (db : DB) (v : String) (oid now : Nat)
    (hphase : db.contest.status = Status.voting)
    (hpos : 0 < db.contest.votesPerUser)
    (hold : ∀ vt ∈ db.votes, vt.voterId = v → seoulDate vt.createdAt ≠ seoulDate now) :
    usedToday db v now = 0 ∧
    (vote db v oid now).1 ≠ VoteOutcome.limitReached ∧
    ∀ n : Nat, ∃ trace : List (Op × Nat), acceptedVotesBy initDB trace "v" = n := by
  have h0 : usedToday db v now = 0 := by
    unfold usedToday votesOn votesOnL
    rw [List.length_eq_zero, List.filter_eq_nil_iff]
    intro a ha
    simp only [Bool.and_eq_true, beq_iff_eq, not_and]
    intro hv hd
    exact hold a ha hv hd
  refine ⟨h0, ?_, ?_⟩
  · unfold vote
    rw [if_neg (fun hne => hne hphase), if_neg (by rw [h0]; omega)]
    (repeat' split) <;> simp
  · intro n
    exact ⟨pumpTrace n 0, (run_pumpTrace n 0).2⟩

theorem c9_seoul_day_window_witness :
    usedToday dbScenario3 "v" 90000 = 0 ∧
    (vote dbScenario3 "v" 1 90000).1 ≠ VoteOutcome.limitReached ∧
    ∀ n : Nat, ∃ trace : List (Op × Nat), acceptedVotesBy initDB trace "v" = n :=
  c9_seoul_day_window dbScenario3 "v" 1 90000 rfl (by decide) (by decide)

end OutfitVote
